import Mathlib

/-!
Verification development for the session/chat-history subsystem of the
conversational backend (`src/azure_app/app/chat_logic.py`).

The Python module is shallowly embedded: in-process state (the module-level
dictionaries `last_activity_times` and `chat_history_store`) becomes an
explicit `RegState` record threaded through the operations; Python dicts
become insertion-ordered association lists; every external collaborator
(identity lookup, session/message queries, inserts/updates, the LLM call)
becomes an `Except Unit`-valued oracle packaged in an `Env` record, read at
the exact point the source performs the call; timestamps (`datetime.now()`,
`time.time()`) become a single integer `Env.now` (seconds), since every
operation reads the clock within one call.
-/

/-- A chat message: `HumanMessage` or `AIMessage` with text content
(`langchain_core.messages`). -/
inductive Message where
  | human (content : String)
  | ai (content : String)
deriving DecidableEq

def Message.isHuman : Message → Bool
  | .human _ => true
  | .ai _ => false

def Message.isAI : Message → Bool
  | .human _ => false
  | .ai _ => true

def Message.content : Message → String
  | .human c => c
  | .ai c => c

/-- A row of the `messages` table as selected by
`_load_messages_from_db` (`content, direction`). -/
structure DbRow where
  content : String
  direction : String
deriving DecidableEq

/-- `direction == incoming ↦ HumanMessage`, `outgoing ↦ AIMessage`,
anything else is skipped (the `if/elif` at lines 63-66). -/
def rowToMessage (r : DbRow) : Option Message :=
  if r.direction = "incoming" then some (.human r.content)
  else if r.direction = "outgoing" then some (.ai r.content)
  else none

/-- A persisted profile sub-field as read back from storage, abstracted by
the behaviour of `json.loads(profile.get(key, str-of-empty-object))`
followed by an attribute access on its result.  `α` is the payload the
caller extracts on the happy path.

* `absent`: the key is missing; `.get` supplies the empty-object text,
  which parses fine.
* `objStr a`: a string parsing to a JSON object carrying payload `a`.
* `badStr`: a string that fails to parse — `json.loads` raises
  `JSONDecodeError`.
* `nonDictStr truthy`: a string parsing to a non-object value (list,
  string, number); `json.loads` succeeds but a later `.get` attribute
  access on the value raises `AttributeError`.  `truthy` records Python
  truthiness of the parsed value (relevant for `relationship_looked_for`,
  whose `.get` is guarded by `if relationship`).
* `nonStr`: a non-string value (`None` or an already-decoded object);
  `json.loads` raises `TypeError`. -/
inductive FieldVal (α : Type) where
  | absent
  | objStr (a : α)
  | badStr
  | nonDictStr (truthy : Bool)
  | nonStr
deriving DecidableEq

/-- A row of the `personal_profiles` table, restricted to the sub-fields
`process_message_with_context` parses.  The remaining columns (`name`,
`age`, …) are read with `dict.get` and interpolated into the prompt text;
they cannot fail and do not influence any claim. -/
structure Profile where
  hobbies_activities : FieldVal (List String)
  main_aspects : FieldVal (List String)
  relationship_looked_for : FieldVal (Option String)
deriving DecidableEq

/-- Result of `get_user_context`: the dict
`{personal_profile, last_conversation, recent_messages}`.  Only the
profile is consumed downstream (`process_message_with_context` reads just
`personal_profile`); `none` models the empty-dict default. -/
structure UserContext where
  personal_profile : Option Profile
  last_conversation : Option String
  recent_messages : List DbRow
deriving DecidableEq

/-- The external collaborators and the clock, as one record of oracles.
Each `Except Unit` field is the outcome of the corresponding remote call:
`.error ()` means the call raised. -/
structure Env where
  /-- `datetime.now()` / `time.time()`, in seconds. -/
  now : Int
  /-- the `users` table query in `get_user_id`: `.ok none` = no row. -/
  userLookup : Except Unit (Option String)
  /-- the `sessions` table query in `get_active_session_id`
  (status `active`, ordered by `last_activity` desc, limit 1). -/
  sessionQuery : Except Unit (Option String)
  /-- the `sessions` insert performed when a new session is created. -/
  sessionInsert : Except Unit Unit
  /-- the `sessions` update performed by `close_session`. -/
  sessionUpdate : Except Unit Unit
  /-- the three queries of `get_user_context`, as one fallible unit
  (the single `try` covers all of them). -/
  contextFetch : Except Unit UserContext
  /-- the contact's persisted `messages` rows in `created_at`-descending
  order, as the `order(desc)` clause of `_load_messages_from_db` returns
  them; the `limit(max_messages)` clause is `List.take` on this list. -/
  messagesDesc : List DbRow
  /-- whether the messages query in `_load_messages_from_db` raises. -/
  loadRaises : Bool
  /-- `llm.invoke`: the generated reply, or a raised exception. -/
  genResult : Except Unit String
  /-- the `messages` insert for the inbound message (`store_message`). -/
  storeInsertIncoming : Except Unit Unit
  /-- the `messages` insert for the outbound reply (`store_message`). -/
  storeInsertOutgoing : Except Unit Unit
  /-- the coin flip `random.random() < 0.1` at the end of
  `handle_user_message`. -/
  randSweep : Bool

/-- `SESSION_TIMEOUT = 15` (seconds). -/
def SESSION_TIMEOUT : Int := 15

/-- In-memory chat history object (`class SupabaseMessageHistory`):
`messages` is the bounded context window, `session_messages` the
unbounded session transcript. -/
structure SupabaseMessageHistory where
  user_id : String
  phone_number : String
  messages : List Message
  session_messages : List Message
  max_messages : Nat
deriving DecidableEq

namespace SupabaseMessageHistory

/-- `add_message`: append to the context window, then truncate it with the
Python slice `messages[-max_messages:]` when it exceeds `max_messages`;
append to the session transcript unconditionally.  Note the slice with
`max_messages = 0` is `[-0:]`, i.e. the whole list — no truncation. -/
def add_message (h : SupabaseMessageHistory) (m : Message) : SupabaseMessageHistory :=
  let ms := h.messages ++ [m]
  let ms' := if ms.length > h.max_messages then
      (if h.max_messages = 0 then ms else ms.drop (ms.length - h.max_messages))
    else ms
  { h with messages := ms', session_messages := h.session_messages ++ [m] }

/-- `add_user_message`. -/
def add_user_message (h : SupabaseMessageHistory) (s : String) : SupabaseMessageHistory :=
  h.add_message (.human s)

/-- `add_ai_message`. -/
def add_ai_message (h : SupabaseMessageHistory) (s : String) : SupabaseMessageHistory :=
  h.add_message (.ai s)

/-- `clear`. -/
def clear (h : SupabaseMessageHistory) : SupabaseMessageHistory :=
  { h with messages := [], session_messages := [] }

/-- `__init__` + `_load_messages_from_db`.  Both views start empty; the
load then fetches the most recent `max_messages` rows (newest first),
reverses them to oldest-first and converts by direction.  If the query
raises, the exception is caught and logged and the window stays empty. -/
def init (env : Env) (user_id phone_number : String) (max_messages : Nat) :
    SupabaseMessageHistory :=
  let h : SupabaseMessageHistory :=
    { user_id := user_id, phone_number := phone_number,
      messages := [], session_messages := [], max_messages := max_messages }
  if env.loadRaises then h
  else { h with
          messages := ((env.messagesDesc.take max_messages).reverse).filterMap rowToMessage }

end SupabaseMessageHistory

/-- Insertion-ordered dict lookup (`k in d` / `d[k]`). -/
def dlookup {α : Type} (k : String) : List (String × α) → Option α
  | [] => none
  | p :: rest => if p.1 = k then some p.2 else dlookup k rest

/-- Python dict assignment `d[k] = v`: overwrite in place if present,
else append at the end (insertion order preserved). -/
def dinsert {α : Type} (k : String) (v : α) : List (String × α) → List (String × α)
  | [] => [(k, v)]
  | p :: rest => if p.1 = k then (k, v) :: rest else p :: dinsert k v rest

/-- Python `del d[k]` (guarded by `k in d` at every call site, so absent
keys are simply left alone).  A dict holds each key at most once, so
removing every pair with key `k` coincides with removing its unique
entry on all states reachable through `dinsert`. -/
def derase {α : Type} (k : String) : List (String × α) → List (String × α)
  | [] => []
  | p :: rest => if p.1 = k then derase k rest else p :: derase k rest

/-- The module-level mutable state: `last_activity_times` and
`chat_history_store`. -/
structure RegState where
  last_activity_times : List (String × Int)
  chat_history_store : List (String × SupabaseMessageHistory)
deriving DecidableEq

/-- `is_session_inactive`: unknown sessions are not inactive; otherwise
inactive iff strictly more than `SESSION_TIMEOUT` seconds have elapsed. -/
def is_session_inactive (now : Int) (st : RegState) (session_id : String) : Bool :=
  match dlookup session_id st.last_activity_times with
  | none => false
  | some t => decide (now - t > SESSION_TIMEOUT)

/-- `update_session_activity`. -/
def update_session_activity (now : Int) (session_id : String) (st : RegState) : RegState :=
  { st with last_activity_times := dinsert session_id now st.last_activity_times }

/-- The final record `close_session` sends to the `sessions` table
(`session_update` at lines 149-159): end time, last activity
(defaulting to now when untracked), the serialized transcript
(`type(msg).__name__`, content, a now-timestamp per entry), status
`closed`, and the metadata counts. -/
structure SessionUpdate where
  session_id : String
  end_time : Int
  last_activity : Int
  messages : List (String × String × Int)
  status : String
  message_count : Nat
  user_messages : Nat
  ai_messages : Nat
deriving DecidableEq

/-- `type(msg).__name__` for the two message classes. -/
def msgTypeName : Message → String
  | .human _ => "HumanMessage"
  | .ai _ => "AIMessage"

/-- The record `close_session` assembles for a resident history `h`. -/
def closeRecord (env : Env) (st : RegState) (session_id : String)
    (h : SupabaseMessageHistory) : SessionUpdate :=
  { session_id := session_id
    end_time := env.now
    last_activity := (dlookup session_id st.last_activity_times).getD env.now
    messages := h.session_messages.map (fun m => (msgTypeName m, m.content, env.now))
    status := "closed"
    message_count := h.session_messages.length
    user_messages := (h.session_messages.filter Message.isHuman).length
    ai_messages := (h.session_messages.filter Message.isAI).length }

/-- `close_session`: a no-op for a session id not resident in
`chat_history_store`; otherwise assemble the final record, attempt the
durable update (`env.sessionUpdate` — a failure is caught and logged),
and delete the session from both in-memory maps regardless.  The second
component lists the attempted durable session writes. -/
def close_session (env : Env) (st : RegState) (session_id : String) :
    RegState × List SessionUpdate :=
  match dlookup session_id st.chat_history_store with
  | none => (st, [])
  | some h =>
    let upd := closeRecord env st session_id h
    -- the `try`: the write either succeeds or its exception is logged;
    -- either way control reaches the deletions
    let _ : Except Unit Unit := env.sessionUpdate
    ({ last_activity_times := derase session_id st.last_activity_times,
       chat_history_store := derase session_id st.chat_history_store },
     [upd])

/-- `get_active_session_id`: scan the in-memory store (insertion order)
for a session id prefixed by `user_id` that is not inactive; otherwise
fall back to the durable `sessions` query, and on a hit touch the found
id into `last_activity_times` (without creating a history object).  A
query exception is caught; the function then returns `none`. -/
def get_active_session_id (env : Env) (user_id : String) (st : RegState) :
    Option String × RegState :=
  match st.chat_history_store.find?
      (fun p => p.1.startsWith user_id && !(is_session_inactive env.now st p.1)) with
  | some p => (some p.1, st)
  | none =>
    match env.sessionQuery with
    | .error _ => (none, st)
    | .ok none => (none, st)
    | .ok (some session_id) =>
      (some session_id, update_session_activity env.now session_id st)

/-- `get_user_id`: the `users` query; no row or a raised exception both
yield `none`. -/
def get_user_id (env : Env) : Option String :=
  match env.userLookup with
  | .ok r => r
  | .error _ => none

/-- `get_chat_history`: lazily construct the history object for a session
id not yet resident (note the source passes `session_id` as the
`user_id` field and the fixed `max_messages=20`), then touch activity. -/
def get_chat_history (env : Env) (session_id phone_number : String) (st : RegState) :
    SupabaseMessageHistory × RegState :=
  match dlookup session_id st.chat_history_store with
  | some h => (h, update_session_activity env.now session_id st)
  | none =>
    let h := SupabaseMessageHistory.init env session_id phone_number 20
    (h, update_session_activity env.now session_id
          { st with chat_history_store := dinsert session_id h st.chat_history_store })

/-- `get_user_context`: the whole fetch is one `try`; on any exception
the empty-context default is returned. -/
def get_user_context (env : Env) : UserContext :=
  match env.contextFetch with
  | .ok ctx => ctx
  | .error _ =>
    { personal_profile := none, last_conversation := none, recent_messages := [] }

/-- Outcome of one profile sub-field parse, distinguishing the exceptions
the per-field handler `except (json.JSONDecodeError, AttributeError)`
catches from a `TypeError`, which it does not. -/
def parseListField (v : FieldVal (List String)) : Except Unit (List String) :=
  match v with
  | .absent => .ok []            -- default text parses to the empty object
  | .objStr a => .ok a
  | .badStr => .ok []            -- JSONDecodeError caught per-field
  | .nonDictStr _ => .ok []      -- AttributeError from `.get` caught per-field
  | .nonStr => .error ()         -- TypeError escapes the per-field handler

/-- `relationship_looked_for`: only `json.loads` sits in the `try`; the
guarded `.get` on the result happens later, inside the prompt f-string,
outside any per-field handler.  A truthy non-dict value therefore raises
`AttributeError` past the per-field handler at that point. -/
def parseRelField (v : FieldVal (Option String)) : Except Unit (Option String) :=
  match v with
  | .absent => .ok none          -- parses to the empty object, falsy
  | .objStr d => .ok d
  | .badStr => .ok none          -- JSONDecodeError caught per-field
  | .nonDictStr truthy => if truthy then .error () else .ok none
  | .nonStr => .error ()         -- TypeError escapes the per-field handler

/-- The fixed apology returned by `process_message_with_context` on any
exception in its body. -/
def apologyText : String :=
  "D\xe9sol\xe9, je n\x27ai pas pu traiter votre message correctement."

/-- The unknown-contact sentinel of `handle_user_message`. -/
def userNotFoundText : String := "Utilisateur non trouv\xe9"

/-- Result of `process_message_with_context`; `gen_invoked` instruments
whether control reached `llm.invoke`. -/
structure GenOutcome where
  reply : String
  state : RegState
  gen_invoked : Bool
deriving DecidableEq

/-- `user_context.get(personal_profile, empty).get(hobbies_activities)`:
an absent profile row behaves as a dict without the key. -/
def profile_hobbies (uc : UserContext) : FieldVal (List String) :=
  match uc.personal_profile with
  | some p => p.hobbies_activities
  | none => .absent

/-- Likewise for the `main_aspects` column. -/
def profile_main_aspects (uc : UserContext) : FieldVal (List String) :=
  match uc.personal_profile with
  | some p => p.main_aspects
  | none => .absent

/-- Likewise for the `relationship_looked_for` column. -/
def profile_relationship (uc : UserContext) : FieldVal (Option String) :=
  match uc.personal_profile with
  | some p => p.relationship_looked_for
  | none => .absent

/-- `process_message_with_context`: fetch (or lazily create) the history,
parse the three profile sub-fields, build the prompt and invoke the LLM.
The whole body is a `try` whose handler returns the apology; state
mutations made before an exception (history creation, activity touch)
persist.  The prompt text itself is pure string assembly and cannot
fail, so it is not materialised here — generation is the oracle
`env.genResult`, independent of the prompt contents. -/
def process_message_with_context (env : Env) (message : String)
    (user_context : UserContext) (session_id phone_number : String)
    (st : RegState) : GenOutcome :=
  let st' := (get_chat_history env session_id phone_number st).2
  match parseListField (profile_hobbies user_context) with
  | .error _ => ⟨apologyText, st', false⟩
  | .ok _ =>
  match parseListField (profile_main_aspects user_context) with
  | .error _ => ⟨apologyText, st', false⟩
  | .ok _ =>
  match parseRelField (profile_relationship user_context) with
  | .error _ => ⟨apologyText, st', false⟩
  | .ok _ =>
  match env.genResult with
  | .error _ => ⟨apologyText, st', true⟩
  | .ok reply => ⟨reply, st', true⟩

/-- `store_message`: best-effort durable insert; an exception is caught
and `None` returned.  It touches no in-memory state. -/
def store_message (res : Except Unit Unit) : Option Unit :=
  match res with
  | .ok _ => some ()
  | .error _ => none

/-- `check_inactive_sessions`: snapshot the resident session ids, then
close every one that is inactive (consulting the evolving state, as the
source consults the live dicts).  Also collects the attempted durable
session writes. -/
def check_inactive_sessions (env : Env) (st : RegState) :
    RegState × List SessionUpdate :=
  (st.chat_history_store.map (·.1)).foldl
    (fun acc sid =>
      if is_session_inactive env.now acc.1 sid then
        ((close_session env acc.1 sid).1, acc.2 ++ (close_session env acc.1 sid).2)
      else acc)
    (st, [])

/-- In Python, the `history` local returned by `get_chat_history` aliases
the object stored in `chat_history_store`, so `history.add_message(...)`
mutates the store entry in place; here that is an explicit in-place map
over the association list. -/
def mutate_resident (session_id : String)
    (f : SupabaseMessageHistory → SupabaseMessageHistory) (st : RegState) : RegState :=
  let upd := fun (p : String × SupabaseMessageHistory) =>
    if p.1 = session_id then (p.1, f p.2) else p
  { st with chat_history_store := st.chat_history_store.map upd }

/-- Result of one `handle_user_message` turn.  `session_id` instruments
the session the turn resolved (`none` when the contact is unknown). -/
structure TurnResult where
  reply : String
  state : RegState
  session_id : Option String
deriving DecidableEq

/-- The session identifier a known-user turn operates on: the resolved
active session, or the freshly synthesized
`user_id + "_" + int(time.time())` when none resolves. -/
def turn_session_id (env : Env) (user_id : String) (st : RegState) : String :=
  match (get_active_session_id env user_id st).1 with
  | some s => s
  | none => user_id ++ "_" ++ toString env.now

/-- Steps 2-7 of `handle_user_message`: resolve the session (the durable
session insert for a freshly created one is `env.sessionInsert`,
best-effort: its failure is caught and logged and changes nothing),
touch activity, fetch the history object and append the user message —
the `history` local and the store entry are the same Python object, so
the append mutates the store entry in place.  The best-effort durable
insert of the inbound message (`store_message`) touches no in-memory
state. -/
def turn_state_before_gen (env : Env) (user_id phone_number message : String)
    (st : RegState) : RegState :=
  mutate_resident (turn_session_id env user_id st)
    (fun h => h.add_user_message message)
    ((get_chat_history env (turn_session_id env user_id st) phone_number
      (update_session_activity env.now (turn_session_id env user_id st)
        (get_active_session_id env user_id st).2)).2)

/-- Step 8: generation with the user context fetched in step 4. -/
def turn_outcome (env : Env) (user_id phone_number message : String)
    (st : RegState) : GenOutcome :=
  process_message_with_context env message (get_user_context env)
    (turn_session_id env user_id st) phone_number
    (turn_state_before_gen env user_id phone_number message st)

/-- Step 9: append the reply to the same store-resident history object. -/
def turn_state_after_reply (env : Env) (user_id phone_number message : String)
    (st : RegState) : RegState :=
  mutate_resident (turn_session_id env user_id st)
    (fun h => h.add_ai_message (turn_outcome env user_id phone_number message st).reply)
    (turn_outcome env user_id phone_number message st).state

/-- Steps 2-11 of `handle_user_message` once the contact has resolved to
`user_id`; step 10 (the best-effort durable insert of the reply) touches
no in-memory state, and step 11 sweeps inactive sessions when the
`random.random() < 0.1` coin (`env.randSweep`) comes up. -/
def handle_known_user (env : Env) (user_id phone_number message : String)
    (st : RegState) : TurnResult :=
  let _ : Except Unit Unit := env.sessionInsert
  let _ := store_message env.storeInsertIncoming
  let _ := store_message env.storeInsertOutgoing
  ⟨(turn_outcome env user_id phone_number message st).reply,
   if env.randSweep then
     (check_inactive_sessions env
       (turn_state_after_reply env user_id phone_number message st)).1
   else turn_state_after_reply env user_id phone_number message st,
   some (turn_session_id env user_id st)⟩

/-- `handle_user_message`, the per-turn orchestrator (lines 391-454):
identify the user — an unknown contact returns the sentinel with nothing
changed — then run the known-user turn. -/
def handle_user_message (env : Env) (phone_number message : String)
    (st : RegState) : TurnResult :=
  match get_user_id env with
  | none => ⟨userNotFoundText, st, none⟩
  | some user_id => handle_known_user env user_id phone_number message st

/-- A freshly constructed history whose initial load yielded nothing
(empty window and transcript), with the given bound. -/
def freshHistory (user_id phone_number : String) (max_messages : Nat) :
    SupabaseMessageHistory :=
  { user_id := user_id, phone_number := phone_number,
    messages := [], session_messages := [], max_messages := max_messages }

/-- A sequence of `add_user_message` / `add_ai_message` calls, each being
`add_message` on the corresponding `Message`. -/
def appendAll (h : SupabaseMessageHistory) (msgs : List Message) :
    SupabaseMessageHistory :=
  msgs.foldl SupabaseMessageHistory.add_message h

theorem add_message_window (h : SupabaseMessageHistory) (m : Message)
    (hmax : 1 ≤ h.max_messages) (hlen : h.messages.length ≤ h.max_messages) :
    (h.add_message m).messages
      = (h.messages ++ [m]).drop ((h.messages.length + 1) - h.max_messages) := by
  unfold SupabaseMessageHistory.add_message
  simp only [List.length_append, List.length_cons, List.length_nil]
  by_cases hgt : h.messages.length + 1 > h.max_messages
  · have h0 : ¬ h.max_messages = 0 := by omega
    simp [hgt, h0]
  · have h0 : h.messages.length + 1 - h.max_messages = 0 := by omega
    simp [hgt, h0]

theorem appendAll_window (msgs : List Message) :
    ∀ h : SupabaseMessageHistory, 1 ≤ h.max_messages →
      h.messages.length ≤ h.max_messages →
      (appendAll h msgs).messages
        = (h.messages ++ msgs).drop ((h.messages.length + msgs.length) - h.max_messages) := by
  induction msgs with
  | nil =>
    intro h hmax hlen
    simp [appendAll, Nat.sub_eq_zero_of_le hlen]
  | cons m rest ih =>
    intro h hmax hlen
    have hstep : (appendAll h (m :: rest)) = appendAll (h.add_message m) rest := by
      simp [appendAll]
    rw [hstep]
    have hmax' : 1 ≤ (h.add_message m).max_messages := by
      simpa [SupabaseMessageHistory.add_message] using hmax
    have hwin := add_message_window h m hmax hlen
    have hlen' : (h.add_message m).messages.length ≤ (h.add_message m).max_messages := by
      rw [hwin]
      simp only [List.length_drop, List.length_append, List.length_cons, List.length_nil,
        SupabaseMessageHistory.add_message]
      omega
    have := ih (h.add_message m) hmax' hlen'
    rw [this, hwin]
    have hmaxeq : (h.add_message m).max_messages = h.max_messages := by
      simp [SupabaseMessageHistory.add_message]
    rw [hmaxeq]
    set d₁ := h.messages.length + 1 - h.max_messages with hd₁
    have hd₁le : d₁ ≤ (h.messages ++ [m]).length := by
      simp only [List.length_append, List.length_cons, List.length_nil]
      omega
    rw [List.drop_append_of_le_length hd₁le |>.symm]
    rw [List.drop_drop]
    have hlendrop : ((h.messages ++ [m]).drop d₁).length
        = h.messages.length + 1 - d₁ := by
      simp only [List.length_drop, List.length_append, List.length_cons, List.length_nil]
    rw [hlendrop]
    have harith : d₁ + (h.messages.length + 1 - d₁ + rest.length - h.max_messages)
        = h.messages.length + (m :: rest).length - h.max_messages := by
      simp only [List.length_cons]
      omega
    rw [harith]
    congr 1
    simp

theorem dlookup_dinsert_self {α : Type} (k : String) (v : α)
    (l : List (String × α)) : dlookup k (dinsert k v l) = some v := by
  induction l with
  | nil => simp [dinsert, dlookup]
  | cons p rest ih =>
    by_cases h : p.1 = k
    · simp [dinsert, dlookup, h]
    · simp [dinsert, dlookup, h, ih]

theorem dlookup_dinsert_ne {α : Type} {k k' : String} (v : α)
    (l : List (String × α)) (h : ¬ k' = k) :
    dlookup k' (dinsert k v l) = dlookup k' l := by
  have h' : ¬ k = k' := fun hh => h (Eq.symm hh)
  induction l with
  | nil => simp [dinsert, dlookup, h']
  | cons p rest ih =>
    by_cases hp : p.1 = k
    · have hpk' : ¬ p.1 = k' := by rw [hp]; exact h'
      simp [dinsert, dlookup, hp, hpk', h']
    · by_cases hp' : p.1 = k'
      · simp [dinsert, dlookup, hp, hp', h, h']
      · simp [dinsert, dlookup, hp, hp', ih]

theorem dlookup_derase_self {α : Type} (k : String) (l : List (String × α)) :
    dlookup k (derase k l) = none := by
  induction l with
  | nil => simp [derase, dlookup]
  | cons p rest ih =>
    by_cases h : p.1 = k
    · simp [derase, h, ih]
    · simp [derase, dlookup, h, ih]

theorem dlookup_derase_ne {α : Type} {k k' : String}
    (l : List (String × α)) (h : ¬ k' = k) :
    dlookup k' (derase k l) = dlookup k' l := by
  have h' : ¬ k = k' := fun hh => h (Eq.symm hh)
  induction l with
  | nil => simp [derase]
  | cons p rest ih =>
    by_cases hp : p.1 = k
    · have hpk' : ¬ p.1 = k' := by rw [hp]; exact h'
      simp [derase, dlookup, hp, hpk', h', ih]
    · by_cases hp' : p.1 = k'
      · simp [derase, dlookup, hp, hp', h, h']
      · simp [derase, dlookup, hp, hp', ih]

theorem dlookup_mutate_self (session_id : String)
    (f : SupabaseMessageHistory → SupabaseMessageHistory) (st : RegState) :
    dlookup session_id (mutate_resident session_id f st).chat_history_store
      = (dlookup session_id st.chat_history_store).map f := by
  show dlookup session_id (st.chat_history_store.map _) = _
  induction st.chat_history_store with
  | nil => simp [dlookup]
  | cons p rest ih =>
    by_cases h : p.1 = session_id
    · simp [dlookup, h]
    · simp [dlookup, h, ih]

theorem dlookup_mutate_ne {session_id k : String}
    (f : SupabaseMessageHistory → SupabaseMessageHistory) (st : RegState)
    (h : ¬ k = session_id) :
    dlookup k (mutate_resident session_id f st).chat_history_store
      = dlookup k st.chat_history_store := by
  have h' : ¬ session_id = k := fun hh => h (Eq.symm hh)
  show dlookup k (st.chat_history_store.map _) = _
  induction st.chat_history_store with
  | nil => simp
  | cons p rest ih =>
    by_cases hp : p.1 = session_id
    · have hpk : ¬ p.1 = k := by rw [hp]; exact h'
      simp [dlookup, hp, hpk, h', ih]
    · by_cases hp' : p.1 = k
      · simp [dlookup, hp, hp', h, ih]
      · simp [dlookup, hp, hp', ih]

theorem mutate_resident_times (session_id : String)
    (f : SupabaseMessageHistory → SupabaseMessageHistory) (st : RegState) :
    (mutate_resident session_id f st).last_activity_times
      = st.last_activity_times := rfl

/-- C1: the claim as stated — "after each call the context window has
length at most `maxMessages`" for *every* fresh store — fails for a store
constructed with `max_messages = 0`: the Python truncation slice
`messages[-0:]` is the whole list, so one `add_user_message` leaves a
window of length 1 > 0. -/
theorem C1_window_counterexample :
    ¬ (((freshHistory "u" "p" 0).add_user_message "hi").messages.length
        ≤ (freshHistory "u" "p" 0).max_messages) := by
  decide

/-- C1 (amended): provided `maxMessages ≥ 1` — which holds for the
default 20 and for every store the module constructs — after any
sequence of `add_user_message`/`add_ai_message` calls on a fresh store
the context window equals the last `maxMessages` appended messages in
insertion order (`List.drop` of all but the most recent), and its length
is at most `maxMessages`; truncation drops only the oldest entries and
never reorders. -/
theorem C1_window_bound (user_id phone_number : String) (max_messages : Nat)
    (hmax : 1 ≤ max_messages) (msgs : List Message) :
    (appendAll (freshHistory user_id phone_number max_messages) msgs).messages
        = msgs.drop (msgs.length - max_messages)
      ∧ (appendAll (freshHistory user_id phone_number max_messages) msgs).messages.length
        ≤ max_messages := by
  have h0 : (freshHistory user_id phone_number max_messages).messages = [] := rfl
  have hml : (freshHistory user_id phone_number max_messages).max_messages
      = max_messages := rfl
  have h := appendAll_window msgs (freshHistory user_id phone_number max_messages)
    (by rw [hml]; exact hmax) (by rw [h0]; simp)
  rw [h0, hml] at h
  simp only [List.nil_append, List.length_nil, Nat.zero_add] at h
  refine ⟨h, ?_⟩
  rw [h]
  simp only [List.length_drop]
  omega

theorem C1_window_bound_witness :
    1 ≤ 2
      ∧ ((appendAll (freshHistory "u" "p" 2)
            [Message.human "a", Message.ai "b", Message.human "c"]).messages
          = [Message.human "a", Message.ai "b", Message.human "c"].drop
              ([Message.human "a", Message.ai "b", Message.human "c"].length - 2)
        ∧ (appendAll (freshHistory "u" "p" 2)
            [Message.human "a", Message.ai "b", Message.human "c"]).messages.length
          ≤ 2) :=
  ⟨by decide,
   C1_window_bound "u" "p" 2 (by decide)
     [Message.human "a", Message.ai "b", Message.human "c"]⟩

/-- C5: `is_session_inactive` is true iff the session has a recorded
last-activity timestamp and strictly more than `SESSION_TIMEOUT` seconds
have elapsed; it is false for untracked sessions; and immediately after
`update_session_activity` at the current time the session is not
inactive. -/
theorem C5_expiry (now : Int) (st : RegState) (session_id : String) :
    (is_session_inactive now st session_id = true
        ↔ ∃ t, dlookup session_id st.last_activity_times = some t
            ∧ now - t > SESSION_TIMEOUT)
      ∧ (dlookup session_id st.last_activity_times = none →
          is_session_inactive now st session_id = false)
      ∧ is_session_inactive now (update_session_activity now session_id st)
          session_id = false := by
  refine ⟨?_, ?_, ?_⟩
  · unfold is_session_inactive
    cases hlk : dlookup session_id st.last_activity_times with
    | none => simp
    | some t =>
      simp only [decide_eq_true_eq]
      constructor
      · intro hgt
        exact ⟨t, rfl, hgt⟩
      · rintro ⟨t', ht', hgt⟩
        cases ht'
        exact hgt
  · intro hnone
    unfold is_session_inactive
    rw [hnone]
  · unfold is_session_inactive update_session_activity
    simp only
    rw [show dlookup session_id (dinsert session_id now st.last_activity_times)
          = some now from dlookup_dinsert_self _ _ _]
    simp [SESSION_TIMEOUT]

theorem C5_expiry_witness :
    dlookup "s" (RegState.mk [] []).last_activity_times = none
      ∧ is_session_inactive 100 (RegState.mk [] []) "s" = false :=
  ⟨rfl, ((C5_expiry 100 (RegState.mk [] []) "s").2.1 rfl)⟩

/-- C7: the constructor never propagates a storage error — on a raising
load both views are empty — and on success it seeds the context window
with the persisted rows limited to `max_messages`, reversed from the
newest-first query order to oldest-to-newest, leaving the transcript
empty; the window length never exceeds `max_messages`. -/
theorem C7_init_load (env : Env) (user_id phone_number : String)
    (max_messages : Nat) :
    (env.loadRaises = true →
        SupabaseMessageHistory.init env user_id phone_number max_messages
          = freshHistory user_id phone_number max_messages)
      ∧ (env.loadRaises = false →
          (SupabaseMessageHistory.init env user_id phone_number max_messages).messages
              = ((env.messagesDesc.take max_messages).reverse).filterMap rowToMessage
            ∧ (SupabaseMessageHistory.init env user_id phone_number
                max_messages).messages.length ≤ max_messages
            ∧ (SupabaseMessageHistory.init env user_id phone_number
                max_messages).session_messages = []) := by
  constructor
  · intro hr
    unfold SupabaseMessageHistory.init freshHistory
    simp [hr]
  · intro hr
    have hmm : (SupabaseMessageHistory.init env user_id phone_number
          max_messages).messages
        = ((env.messagesDesc.take max_messages).reverse).filterMap rowToMessage := by
      simp [SupabaseMessageHistory.init, hr]
    refine ⟨hmm, ?_, by simp [SupabaseMessageHistory.init, hr]⟩
    rw [hmm]
    calc (((env.messagesDesc.take max_messages).reverse).filterMap rowToMessage).length
        ≤ ((env.messagesDesc.take max_messages).reverse).length :=
          List.length_filterMap_le _ _
      _ ≤ max_messages := by
          simp only [List.length_reverse, List.length_take]
          omega

/-- A concrete environment for witnesses; the flag selects whether the
initial history load raises. -/
def envW (lr : Bool) : Env :=
  { now := 100
    userLookup := .ok (some "u1")
    sessionQuery := .ok none
    sessionInsert := .ok ()
    sessionUpdate := .ok ()
    contextFetch := .error ()
    messagesDesc := [⟨"hello", "incoming"⟩, ⟨"yo", "outgoing"⟩, ⟨"x", "call"⟩]
    loadRaises := lr
    genResult := .ok "generated reply"
    storeInsertIncoming := .ok ()
    storeInsertOutgoing := .ok ()
    randSweep := false }

theorem C7_init_load_witness :
    ((envW true).loadRaises = true
        ∧ SupabaseMessageHistory.init (envW true) "u" "p" 2
            = freshHistory "u" "p" 2)
      ∧ ((envW false).loadRaises = false
        ∧ ((SupabaseMessageHistory.init (envW false) "u" "p" 2).messages
              = (((envW false).messagesDesc.take 2).reverse).filterMap rowToMessage
            ∧ (SupabaseMessageHistory.init (envW false) "u" "p" 2).messages.length ≤ 2
            ∧ (SupabaseMessageHistory.init (envW false) "u" "p" 2).session_messages
              = [])) :=
  ⟨⟨rfl, (C7_init_load (envW true) "u" "p" 2).1 rfl⟩,
   ⟨rfl, (C7_init_load (envW false) "u" "p" 2).2 rfl⟩⟩

/-- C3: closing a session resident in the history store attempts exactly
one durable write — the final record carrying the close time, the last
activity, the serialized transcript, status `closed` and the message
counts — and removes the session from both in-memory maps whatever the
write's outcome (`env.sessionUpdate` is unconstrained), leaving every
other entry untouched; closing a non-resident session identifier
performs no write and returns the state unchanged. -/
theorem C3_close (env : Env) (st : RegState) (session_id : String) :
    (∀ h, dlookup session_id st.chat_history_store = some h →
        (close_session env st session_id).2 = [closeRecord env st session_id h]
          ∧ (closeRecord env st session_id h).status = "closed"
          ∧ (closeRecord env st session_id h).end_time = env.now
          ∧ (closeRecord env st session_id h).last_activity
              = (dlookup session_id st.last_activity_times).getD env.now
          ∧ (closeRecord env st session_id h).messages
              = h.session_messages.map (fun m => (msgTypeName m, m.content, env.now))
          ∧ (closeRecord env st session_id h).message_count
              = h.session_messages.length
          ∧ dlookup session_id
              (close_session env st session_id).1.chat_history_store = none
          ∧ dlookup session_id
              (close_session env st session_id).1.last_activity_times = none
          ∧ ∀ k, ¬ k = session_id →
              dlookup k (close_session env st session_id).1.chat_history_store
                  = dlookup k st.chat_history_store
                ∧ dlookup k (close_session env st session_id).1.last_activity_times
                  = dlookup k st.last_activity_times)
      ∧ (dlookup session_id st.chat_history_store = none →
          close_session env st session_id = (st, [])) := by
  constructor
  · intro h hlk
    refine ⟨?_, rfl, rfl, rfl, rfl, rfl, ?_, ?_, ?_⟩
    · simp [close_session, hlk]
    · simp only [close_session, hlk]
      exact dlookup_derase_self _ _
    · simp only [close_session, hlk]
      exact dlookup_derase_self _ _
    · intro k hk
      constructor
      · simp only [close_session, hlk]
        exact dlookup_derase_ne _ hk
      · simp only [close_session, hlk]
        exact dlookup_derase_ne _ hk
  · intro hlk
    simp [close_session, hlk]

/-- A concrete resident history for witnesses. -/
def histW : SupabaseMessageHistory :=
  { user_id := "s1", phone_number := "p"
    messages := [Message.human "hi", Message.ai "yo"]
    session_messages := [Message.human "hi", Message.ai "yo"]
    max_messages := 20 }

/-- A concrete registry state with one resident session for witnesses. -/
def stW : RegState :=
  { last_activity_times := [("s1", 50)], chat_history_store := [("s1", histW)] }

theorem C3_close_witness :
    dlookup "s1" (close_session (envW false) stW "s1").1.chat_history_store = none
      ∧ close_session (envW false) stW "zz" = (stW, []) :=
  ⟨((C3_close (envW false) stW "s1").1 histW rfl).2.2.2.2.2.2.1,
   (C3_close (envW false) stW "zz").2 rfl⟩

/-- C8: when no in-memory session id is prefixed by the user id and
within the timeout, `get_active_session_id` falls back to the durable
query; a hit is touched into the activity tracker (fresh timestamp
`env.now`) and returned with the history store untouched; no hit — or a
raising query — yields `none` with the state unchanged. -/
theorem C8_storage_fallback (env : Env) (user_id : String) (st : RegState)
    (hmem : ∀ p ∈ st.chat_history_store,
        ¬ (p.1.startsWith user_id = true
            ∧ is_session_inactive env.now st p.1 = false)) :
    (∀ sid, env.sessionQuery = .ok (some sid) →
        (get_active_session_id env user_id st).1 = some sid
          ∧ dlookup sid
              (get_active_session_id env user_id st).2.last_activity_times
            = some env.now
          ∧ (∀ k, ¬ k = sid →
              dlookup k (get_active_session_id env user_id st).2.last_activity_times
                = dlookup k st.last_activity_times)
          ∧ (get_active_session_id env user_id st).2.chat_history_store
            = st.chat_history_store)
      ∧ (env.sessionQuery = .ok none →
          get_active_session_id env user_id st = (none, st))
      ∧ (env.sessionQuery = .error () →
          get_active_session_id env user_id st = (none, st)) := by
  have hfind : st.chat_history_store.find?
      (fun p => p.1.startsWith user_id && !(is_session_inactive env.now st p.1))
      = none := by
    rw [List.find?_eq_none]
    intro p hp
    have := hmem p hp
    intro hb
    rw [Bool.and_eq_true, Bool.not_eq_true'] at hb
    exact this ⟨hb.1, hb.2⟩
  refine ⟨?_, ?_, ?_⟩
  · intro sid hq
    refine ⟨?_, ?_, ?_, ?_⟩
    · simp [get_active_session_id, hfind, hq]
    · simp only [get_active_session_id, hfind, hq, update_session_activity]
      exact dlookup_dinsert_self _ _ _
    · intro k hk
      simp only [get_active_session_id, hfind, hq, update_session_activity]
      exact dlookup_dinsert_ne _ _ hk
    · simp [get_active_session_id, hfind, hq, update_session_activity]
  · intro hq
    simp [get_active_session_id, hfind, hq]
  · intro hq
    simp [get_active_session_id, hfind, hq]

/-- Environment whose durable session query finds an active record. -/
def envQ : Env :=
  { envW false with sessionQuery := .ok (some "u1_77") }

theorem stW_no_memory_hit :
    ∀ p ∈ stW.chat_history_store,
      ¬ (p.1.startsWith "u9" = true
          ∧ is_session_inactive envQ.now stW p.1 = false) := by
  intro p hp
  have hp' : p = ("s1", histW) := by simpa [stW] using hp
  subst hp'
  intro hand
  exact absurd hand.2 (by decide)

theorem C8_storage_fallback_witness :
    (get_active_session_id envQ "u9" stW).1 = some "u1_77"
      ∧ dlookup "u1_77"
          (get_active_session_id envQ "u9" stW).2.last_activity_times
        = some (100 : Int) :=
  ⟨(((C8_storage_fallback envQ "u9" stW stW_no_memory_hit).1 "u1_77" rfl)).1,
   (((C8_storage_fallback envQ "u9" stW stW_no_memory_hit).1 "u1_77" rfl)).2.1⟩

theorem process_reply_cases (env : Env) (message : String) (uc : UserContext)
    (session_id phone_number : String) (st : RegState) :
    (process_message_with_context env message uc session_id phone_number st).reply
        = apologyText
      ∨ env.genResult = Except.ok
          (process_message_with_context env message uc session_id phone_number
            st).reply := by
  unfold process_message_with_context
  cases h1 : parseListField (profile_hobbies uc) with
  | error a => left; rfl
  | ok a1 =>
    cases h2 : parseListField (profile_main_aspects uc) with
    | error a => left; rfl
    | ok a2 =>
      cases h3 : parseRelField (profile_relationship uc) with
      | error a => left; rfl
      | ok a3 =>
        cases h4 : env.genResult with
        | error a => left; rfl
        | ok reply => right; rfl

theorem process_state_eq (env : Env) (message : String) (uc : UserContext)
    (session_id phone_number : String) (st : RegState) :
    (process_message_with_context env message uc session_id phone_number st).state
      = (get_chat_history env session_id phone_number st).2 := by
  unfold process_message_with_context
  cases h1 : parseListField (profile_hobbies uc) with
  | error a => rfl
  | ok a1 =>
    cases h2 : parseListField (profile_main_aspects uc) with
    | error a => rfl
    | ok a2 =>
      cases h3 : parseRelField (profile_relationship uc) with
      | error a => rfl
      | ok a3 =>
        cases h4 : env.genResult with
        | error a => rfl
        | ok reply => rfl

/-- C2: for every behaviour of the external collaborators and every
state, `handle_user_message` returns a plain string — the embedding is
total, mirroring that every fallible call in the source sits under a
handler — and the returned string is the unknown-user sentinel, the
fixed apology, or the successfully generated reply. -/
theorem C2_reply_total (env : Env) (phone_number message : String)
    (st : RegState) :
    (handle_user_message env phone_number message st).reply = userNotFoundText
      ∨ (handle_user_message env phone_number message st).reply = apologyText
      ∨ env.genResult = Except.ok
          (handle_user_message env phone_number message st).reply := by
  unfold handle_user_message
  cases hu : get_user_id env with
  | none => left; rfl
  | some uid =>
    right
    have hr : (handle_known_user env uid phone_number message st).reply
        = (process_message_with_context env message (get_user_context env)
            (turn_session_id env uid st) phone_number
            (turn_state_before_gen env uid phone_number message st)).reply := rfl
    rw [hr]
    exact process_reply_cases env message (get_user_context env)
      (turn_session_id env uid st) phone_number _

/-- A profile whose `hobbies_activities` column holds a non-string value
(`None` or an already-decoded object). -/
def profileNonStr : Profile :=
  { hobbies_activities := .nonStr, main_aspects := .absent,
    relationship_looked_for := .absent }

/-- C4: the claim as stated is false — when a profile sub-field holds a
non-string value, `json.loads` raises `TypeError`, which the per-field
handler `except (json.JSONDecodeError, AttributeError)` does not catch:
the outer handler returns the apology and generation is never invoked,
even though the generator would have succeeded. -/
theorem C4_per_field_counterexample :
    (process_message_with_context (envW false) "hi"
        ⟨some profileNonStr, none, []⟩ "s1" "p" stW).gen_invoked = false
      ∧ (process_message_with_context (envW false) "hi"
          ⟨some profileNonStr, none, []⟩ "s1" "p" stW).reply = apologyText
      ∧ (envW false).genResult = Except.ok "generated reply" :=
  ⟨rfl, rfl, rfl⟩

/-- C4 (amended): the per-field recovery holds exactly for failures the
handler can see — absent fields, unparsable JSON text, and (for the two
list-valued fields) text parsing to a non-object — which default that
field to empty and let the turn proceed to invoke generation.  A
non-string value in any of the three fields, or text parsing to a truthy
non-object in `relationship_looked_for`, raises an error the per-field
handler does not catch, so context assembly aborts to the outer handler
instead. -/
theorem C4_per_field_defaults (env : Env) (message : String)
    (lc : Option String) (rm : List DbRow)
    (session_id phone_number : String) (st : RegState) (p : Profile)
    (h1 : p.hobbies_activities ≠ FieldVal.nonStr)
    (h2 : p.main_aspects ≠ FieldVal.nonStr)
    (h3 : p.relationship_looked_for ≠ FieldVal.nonStr)
    (h4 : p.relationship_looked_for ≠ FieldVal.nonDictStr true) :
    (process_message_with_context env message ⟨some p, lc, rm⟩ session_id
        phone_number st).gen_invoked = true
      ∧ ((process_message_with_context env message ⟨some p, lc, rm⟩ session_id
            phone_number st).reply = apologyText
          ∨ env.genResult = Except.ok
              (process_message_with_context env message ⟨some p, lc, rm⟩
                session_id phone_number st).reply) := by
  obtain ⟨a1, e1⟩ : ∃ a, parseListField p.hobbies_activities = Except.ok a := by
    cases hv : p.hobbies_activities with
    | nonStr => exact absurd hv h1
    | absent => exact ⟨[], rfl⟩
    | objStr a => exact ⟨a, rfl⟩
    | badStr => exact ⟨[], rfl⟩
    | nonDictStr t => exact ⟨[], rfl⟩
  obtain ⟨a2, e2⟩ : ∃ a, parseListField p.main_aspects = Except.ok a := by
    cases hv : p.main_aspects with
    | nonStr => exact absurd hv h2
    | absent => exact ⟨[], rfl⟩
    | objStr a => exact ⟨a, rfl⟩
    | badStr => exact ⟨[], rfl⟩
    | nonDictStr t => exact ⟨[], rfl⟩
  obtain ⟨a3, e3⟩ : ∃ a, parseRelField p.relationship_looked_for
      = Except.ok a := by
    cases hv : p.relationship_looked_for with
    | nonStr => exact absurd hv h3
    | absent => exact ⟨none, rfl⟩
    | objStr a => exact ⟨a, rfl⟩
    | badStr => exact ⟨none, rfl⟩
    | nonDictStr t =>
      cases t with
      | true => exact absurd hv h4
      | false => exact ⟨none, rfl⟩
  unfold process_message_with_context
  simp only [profile_hobbies, profile_main_aspects, profile_relationship,
    e1, e2, e3]
  cases hg : env.genResult with
  | error e => exact ⟨rfl, Or.inl rfl⟩
  | ok reply => exact ⟨rfl, Or.inr rfl⟩

/-- A profile whose three sub-fields all hold unparsable JSON text. -/
def profileBadText : Profile :=
  { hobbies_activities := .badStr, main_aspects := .badStr,
    relationship_looked_for := .badStr }

theorem C4_per_field_defaults_witness :
    (process_message_with_context (envW false) "hi"
        ⟨some profileBadText, none, []⟩ "s1" "p" stW).gen_invoked = true :=
  (C4_per_field_defaults (envW false) "hi" none [] "s1" "p" stW profileBadText
    (by decide) (by decide) (by decide) (by decide)).1

theorem mem_dinsert {α : Type} {p : String × α} {k : String} {v : α}
    {l : List (String × α)} (h : p ∈ dinsert k v l) : p = (k, v) ∨ p ∈ l := by
  induction l with
  | nil =>
    simp only [dinsert, List.mem_singleton] at h
    exact Or.inl h
  | cons q rest ih =>
    by_cases hq : q.1 = k
    · simp only [dinsert, if_pos hq, List.mem_cons] at h
      rcases h with h | h
      · exact Or.inl h
      · exact Or.inr (List.mem_cons.mpr (Or.inr h))
    · simp only [dinsert, if_neg hq, List.mem_cons] at h
      rcases h with h | h
      · exact Or.inr (List.mem_cons.mpr (Or.inl h))
      · rcases ih h with h' | h'
        · exact Or.inl h'
        · exact Or.inr (List.mem_cons.mpr (Or.inr h'))

theorem mem_derase {α : Type} {p : String × α} {k : String}
    {l : List (String × α)} (h : p ∈ derase k l) : p ∈ l ∧ ¬ p.1 = k := by
  induction l with
  | nil => simp [derase] at h
  | cons q rest ih =>
    by_cases hq : q.1 = k
    · simp only [derase, if_pos hq] at h
      rcases ih h with ⟨h1, h2⟩
      exact ⟨List.mem_cons.mpr (Or.inr h1), h2⟩
    · simp only [derase, if_neg hq, List.mem_cons] at h
      rcases h with h | h
      · refine ⟨List.mem_cons.mpr (Or.inl h), ?_⟩
        rw [h]
        exact hq
      · rcases ih h with ⟨h1, h2⟩
        exact ⟨List.mem_cons.mpr (Or.inr h1), h2⟩

/-- The implicit registry invariant: every session id resident in the
history store also has a recorded last-activity timestamp. -/
def RegInv (st : RegState) : Prop :=
  ∀ p ∈ st.chat_history_store,
    (dlookup p.1 st.last_activity_times).isSome = true

theorem RegInv_update_of_rest (now : Int) (session_id : String) {st : RegState}
    (h : ∀ p ∈ st.chat_history_store, ¬ p.1 = session_id →
        (dlookup p.1 st.last_activity_times).isSome = true) :
    RegInv (update_session_activity now session_id st) := by
  intro p hp
  by_cases hk : p.1 = session_id
  · show (dlookup p.1 (dinsert session_id now st.last_activity_times)).isSome = true
    rw [hk, dlookup_dinsert_self]
    rfl
  · show (dlookup p.1 (dinsert session_id now st.last_activity_times)).isSome = true
    rw [dlookup_dinsert_ne _ _ hk]
    exact h p hp hk

theorem RegInv_update (now : Int) (session_id : String) {st : RegState}
    (h : RegInv st) : RegInv (update_session_activity now session_id st) :=
  RegInv_update_of_rest now session_id (fun p hp _ => h p hp)

theorem RegInv_get_chat_history (env : Env) (session_id phone_number : String)
    {st : RegState} (h : RegInv st) :
    RegInv (get_chat_history env session_id phone_number st).2 := by
  unfold get_chat_history
  cases hl : dlookup session_id st.chat_history_store with
  | some hh => exact RegInv_update _ _ h
  | none =>
    apply RegInv_update_of_rest
    intro p hp hne
    rcases mem_dinsert hp with h' | h'
    · exact absurd (by rw [h']) hne
    · exact h p h'

theorem RegInv_get_active (env : Env) (user_id : String) {st : RegState}
    (h : RegInv st) : RegInv (get_active_session_id env user_id st).2 := by
  unfold get_active_session_id
  cases hf : st.chat_history_store.find?
      (fun p => p.1.startsWith user_id && !(is_session_inactive env.now st p.1)) with
  | some p => exact h
  | none =>
    cases hq : env.sessionQuery with
    | error e => exact h
    | ok r =>
      cases r with
      | none => exact h
      | some sid => exact RegInv_update _ _ h

theorem RegInv_close (env : Env) (session_id : String) {st : RegState}
    (h : RegInv st) : RegInv (close_session env st session_id).1 := by
  unfold close_session
  cases hl : dlookup session_id st.chat_history_store with
  | none => exact h
  | some hh =>
    intro p hp
    rcases mem_derase hp with ⟨h1, h2⟩
    show (dlookup p.1 (derase session_id st.last_activity_times)).isSome = true
    rw [dlookup_derase_ne _ h2]
    exact h p h1

theorem RegInv_foldl_close (env : Env) (ids : List String) :
    ∀ acc : RegState × List SessionUpdate, RegInv acc.1 →
      RegInv (ids.foldl (fun acc sid =>
        if is_session_inactive env.now acc.1 sid then
          ((close_session env acc.1 sid).1, acc.2 ++ (close_session env acc.1 sid).2)
        else acc) acc).1 := by
  induction ids with
  | nil => intro acc h; exact h
  | cons id rest ih =>
    intro acc h
    simp only [List.foldl_cons]
    by_cases hia : is_session_inactive env.now acc.1 id = true
    · rw [if_pos hia]
      exact ih _ (RegInv_close env id h)
    · rw [if_neg hia]
      exact ih _ h

theorem RegInv_check (env : Env) {st : RegState} (h : RegInv st) :
    RegInv (check_inactive_sessions env st).1 := by
  unfold check_inactive_sessions
  exact RegInv_foldl_close env _ (st, []) h

/-- C9: from any state satisfying the registry invariant — every session
resident in the history store has a last-activity entry — each of the
five registry operations preserves it (the converse inclusion is not
claimed: the storage-fallback of `get_active_session_id` adds a
timestamp without a history object). -/
theorem C9_registry_invariant (st : RegState) (h : RegInv st) :
    (∀ env session_id phone_number,
        RegInv (get_chat_history env session_id phone_number st).2)
      ∧ (∀ env user_id, RegInv (get_active_session_id env user_id st).2)
      ∧ (∀ now session_id, RegInv (update_session_activity now session_id st))
      ∧ (∀ env session_id, RegInv (close_session env st session_id).1)
      ∧ (∀ env, RegInv (check_inactive_sessions env st).1) :=
  ⟨fun env sid ph => RegInv_get_chat_history env sid ph h,
   fun env uid => RegInv_get_active env uid h,
   fun now sid => RegInv_update now sid h,
   fun env sid => RegInv_close env sid h,
   fun env => RegInv_check env h⟩

theorem C9_registry_invariant_witness :
    RegInv (get_chat_history (envW false) "s1" "p" stW).2 :=
  (C9_registry_invariant stW
      (by intro p hp
          have hp' : p = ("s1", histW) := by simpa [stW] using hp
          rw [hp']
          decide)).1
    (envW false) "s1" "p"

theorem get_chat_history_store_self (env : Env) (session_id phone_number : String)
    (st : RegState) :
    dlookup session_id
        (get_chat_history env session_id phone_number st).2.chat_history_store
      = some ((dlookup session_id st.chat_history_store).getD
          (SupabaseMessageHistory.init env session_id phone_number 20)) := by
  unfold get_chat_history
  cases hl : dlookup session_id st.chat_history_store with
  | some hh => simpa [update_session_activity] using hl
  | none => simp [update_session_activity, dlookup_dinsert_self]

theorem get_chat_history_times_self (env : Env) (session_id phone_number : String)
    (st : RegState) :
    dlookup session_id
        (get_chat_history env session_id phone_number st).2.last_activity_times
      = some env.now := by
  unfold get_chat_history
  cases hl : dlookup session_id st.chat_history_store <;>
    simp [update_session_activity, dlookup_dinsert_self]

theorem close_session_lookup_ne (env : Env) (st : RegState) (closed k : String)
    (hk : ¬ k = closed) :
    dlookup k (close_session env st closed).1.chat_history_store
        = dlookup k st.chat_history_store
      ∧ dlookup k (close_session env st closed).1.last_activity_times
        = dlookup k st.last_activity_times := by
  unfold close_session
  cases hl : dlookup closed st.chat_history_store with
  | none => exact ⟨rfl, rfl⟩
  | some hh => exact ⟨dlookup_derase_ne _ hk, dlookup_derase_ne _ hk⟩

theorem foldl_close_preserves (env : Env) (session_id : String) (t : Int)
    (hnot : ¬ env.now - t > SESSION_TIMEOUT) (ids : List String) :
    ∀ acc : RegState × List SessionUpdate,
      dlookup session_id acc.1.last_activity_times = some t →
      dlookup session_id ((ids.foldl (fun acc sid =>
            if is_session_inactive env.now acc.1 sid then
              ((close_session env acc.1 sid).1,
               acc.2 ++ (close_session env acc.1 sid).2)
            else acc) acc).1).chat_history_store
          = dlookup session_id acc.1.chat_history_store
        ∧ dlookup session_id ((ids.foldl (fun acc sid =>
            if is_session_inactive env.now acc.1 sid then
              ((close_session env acc.1 sid).1,
               acc.2 ++ (close_session env acc.1 sid).2)
            else acc) acc).1).last_activity_times = some t := by
  induction ids with
  | nil => intro acc ht; exact ⟨rfl, ht⟩
  | cons id rest ih =>
    intro acc ht
    simp only [List.foldl_cons]
    by_cases hid : id = session_id
    · have hfalse : is_session_inactive env.now acc.1 id = false := by
        unfold is_session_inactive
        rw [hid, ht]
        simpa using hnot
      rw [hfalse]
      simp only [Bool.false_eq_true, if_false]
      exact ih acc ht
    · have hne : ¬ session_id = id := fun hh => hid (Eq.symm hh)
      by_cases hia : is_session_inactive env.now acc.1 id = true
      · rw [if_pos hia]
        have hcl := close_session_lookup_ne env acc.1 id session_id hne
        have ht' : dlookup session_id
            (close_session env acc.1 id).1.last_activity_times = some t := by
          rw [hcl.2]; exact ht
        have := ih ((close_session env acc.1 id).1,
          acc.2 ++ (close_session env acc.1 id).2) ht'
        refine ⟨?_, this.2⟩
        rw [this.1]
        exact hcl.1
      · rw [if_neg hia]
        exact ih acc ht

theorem check_preserves_touched (env : Env) (st : RegState)
    (session_id : String) (t : Int)
    (ht : dlookup session_id st.last_activity_times = some t)
    (hnot : ¬ env.now - t > SESSION_TIMEOUT) :
    dlookup session_id
        (check_inactive_sessions env st).1.chat_history_store
      = dlookup session_id st.chat_history_store := by
  unfold check_inactive_sessions
  exact (foldl_close_preserves env session_id t hnot _ (st, []) ht).1

/-- The history object the turn operates on before any append: the
store-resident one, or the lazily constructed one when the resolved
session id has no history object yet (fresh session, or the storage
fallback of `get_active_session_id`). -/
def turn_prev_history (env : Env) (user_id phone_number : String)
    (st : RegState) : SupabaseMessageHistory :=
  (dlookup (turn_session_id env user_id st)
      (get_active_session_id env user_id st).2.chat_history_store).getD
    (SupabaseMessageHistory.init env (turn_session_id env user_id st)
      phone_number 20)

theorem turn_state_before_gen_store (env : Env)
    (user_id phone_number message : String) (st : RegState) :
    dlookup (turn_session_id env user_id st)
        (turn_state_before_gen env user_id phone_number message st).chat_history_store
      = some ((turn_prev_history env user_id phone_number st).add_user_message
          message) := by
  unfold turn_state_before_gen
  rw [dlookup_mutate_self, get_chat_history_store_self]
  rfl

theorem turn_state_before_gen_times (env : Env)
    (user_id phone_number message : String) (st : RegState) :
    dlookup (turn_session_id env user_id st)
        (turn_state_before_gen env user_id phone_number message st).last_activity_times
      = some env.now := by
  unfold turn_state_before_gen
  rw [mutate_resident_times]
  exact get_chat_history_times_self _ _ _ _

theorem turn_outcome_store (env : Env)
    (user_id phone_number message : String) (st : RegState) :
    dlookup (turn_session_id env user_id st)
        (turn_outcome env user_id phone_number message st).state.chat_history_store
      = some ((turn_prev_history env user_id phone_number st).add_user_message
          message) := by
  unfold turn_outcome
  rw [process_state_eq, get_chat_history_store_self, turn_state_before_gen_store]
  rfl

theorem turn_outcome_times (env : Env)
    (user_id phone_number message : String) (st : RegState) :
    dlookup (turn_session_id env user_id st)
        (turn_outcome env user_id phone_number message st).state.last_activity_times
      = some env.now := by
  unfold turn_outcome
  rw [process_state_eq]
  exact get_chat_history_times_self _ _ _ _

theorem turn_state_after_reply_store (env : Env)
    (user_id phone_number message : String) (st : RegState) :
    dlookup (turn_session_id env user_id st)
        (turn_state_after_reply env user_id phone_number message st).chat_history_store
      = some (((turn_prev_history env user_id phone_number st).add_user_message
            message).add_ai_message
          (turn_outcome env user_id phone_number message st).reply) := by
  unfold turn_state_after_reply
  rw [dlookup_mutate_self, turn_outcome_store]
  rfl

theorem turn_state_after_reply_times (env : Env)
    (user_id phone_number message : String) (st : RegState) :
    dlookup (turn_session_id env user_id st)
        (turn_state_after_reply env user_id phone_number message st).last_activity_times
      = some env.now := by
  unfold turn_state_after_reply
  rw [mutate_resident_times]
  exact turn_outcome_times _ _ _ _ _

theorem handle_known_user_store (env : Env)
    (user_id phone_number message : String) (st : RegState) :
    dlookup (turn_session_id env user_id st)
        (handle_known_user env user_id phone_number message st).state.chat_history_store
      = some (((turn_prev_history env user_id phone_number st).add_user_message
            message).add_ai_message
          (turn_outcome env user_id phone_number message st).reply) := by
  have hstate : (handle_known_user env user_id phone_number message st).state
      = if env.randSweep then
          (check_inactive_sessions env
            (turn_state_after_reply env user_id phone_number message st)).1
        else turn_state_after_reply env user_id phone_number message st := rfl
  rw [hstate]
  by_cases hs : env.randSweep = true
  · rw [if_pos hs]
    rw [check_preserves_touched env _ _ env.now
      (turn_state_after_reply_times env user_id phone_number message st)
      (by show ¬ env.now - env.now > (15 : Int); omega)]
    exact turn_state_after_reply_store env user_id phone_number message st
  · rw [if_neg hs]
    exact turn_state_after_reply_store env user_id phone_number message st

theorem add_message_session_messages (h : SupabaseMessageHistory) (m : Message) :
    (h.add_message m).session_messages = h.session_messages ++ [m] := rfl

theorem add_message_window_getLast (h : SupabaseMessageHistory) (m : Message) :
    (h.add_message m).messages.getLast? = some m := by
  simp only [SupabaseMessageHistory.add_message]
  split_ifs with hgt h0
  · exact List.getLast?_concat _
  · have hd : (h.messages ++ [m]).length - h.max_messages ≤ h.messages.length := by
      simp only [List.length_append, List.length_cons, List.length_nil]
      omega
    rw [List.drop_append_of_le_length hd]
    exact List.getLast?_concat _
  · exact List.getLast?_concat _

theorem process_reply_genfail (env : Env) (message : String) (uc : UserContext)
    (session_id phone_number : String) (st : RegState)
    (hgen : env.genResult = Except.error ()) :
    (process_message_with_context env message uc session_id phone_number
      st).reply = apologyText := by
  unfold process_message_with_context
  cases h1 : parseListField (profile_hobbies uc) with
  | error a => rfl
  | ok a1 =>
    cases h2 : parseListField (profile_main_aspects uc) with
    | error a => rfl
    | ok a2 =>
      cases h3 : parseRelField (profile_relationship uc) with
      | error a => rfl
      | ok a3 => rw [hgen]

/-- C6: whenever generation raises, the turn of a known user still
returns the fixed apology (a non-empty string), and that same apology is
the last entry of both the session transcript and the context window of
the session's history object. -/
theorem C6_generation_fallback (env : Env)
    (phone_number message user_id : String) (st : RegState)
    (hgen : env.genResult = Except.error ())
    (huser : get_user_id env = some user_id) :
    (handle_user_message env phone_number message st).reply = apologyText
      ∧ apologyText ≠ ""
      ∧ ∃ h : SupabaseMessageHistory,
          dlookup (turn_session_id env user_id st)
              (handle_user_message env phone_number message st).state.chat_history_store
            = some h
          ∧ h.session_messages.getLast? = some (Message.ai apologyText)
          ∧ h.messages.getLast? = some (Message.ai apologyText) := by
  have hhandle : handle_user_message env phone_number message st
      = handle_known_user env user_id phone_number message st := by
    unfold handle_user_message
    rw [huser]
  have hreply : (handle_known_user env user_id phone_number message st).reply
      = (turn_outcome env user_id phone_number message st).reply := rfl
  have hap : (turn_outcome env user_id phone_number message st).reply
      = apologyText := by
    unfold turn_outcome
    exact process_reply_genfail env message (get_user_context env)
      (turn_session_id env user_id st) phone_number
      (turn_state_before_gen env user_id phone_number message st) hgen
  refine ⟨by rw [hhandle, hreply, hap], by decide, ?_⟩
  refine ⟨_, by
    rw [hhandle]
    exact handle_known_user_store env user_id phone_number message st, ?_, ?_⟩
  · rw [SupabaseMessageHistory.add_ai_message, add_message_session_messages, hap]
    exact List.getLast?_concat _
  · rw [SupabaseMessageHistory.add_ai_message, hap]
    exact add_message_window_getLast _ _

/-- Environment of a turn in which the generation call raises. -/
def envG : Env := { envW false with genResult := .error () }

theorem C6_generation_fallback_witness :
    (handle_user_message envG "p" "hi" stW).reply = apologyText :=
  (C6_generation_fallback envG "p" "hi" "u1" stW rfl rfl).1

/-- C10: an unknown contact leaves the registry and every transcript
untouched and yields the sentinel; a known contact's turn makes the
resolved session resident with its transcript grown by exactly the two
turn messages — the inbound text as a user message, then the returned
reply as an assistant message — for every outcome of the durable-store
writes (`env` is unconstrained). -/
theorem C10_transcript_growth (env : Env) (phone_number message : String)
    (st : RegState) :
    (get_user_id env = none →
        handle_user_message env phone_number message st
          = ⟨userNotFoundText, st, none⟩)
      ∧ (∀ user_id, get_user_id env = some user_id →
          (handle_user_message env phone_number message st).session_id
              = some (turn_session_id env user_id st)
            ∧ ∃ h : SupabaseMessageHistory,
                dlookup (turn_session_id env user_id st)
                    (handle_user_message env phone_number message st).state.chat_history_store
                  = some h
                ∧ h.session_messages
                  = (turn_prev_history env user_id phone_number st).session_messages
                      ++ [Message.human message,
                          Message.ai (handle_user_message env phone_number
                            message st).reply]) := by
  constructor
  · intro hu
    unfold handle_user_message
    rw [hu]
  · intro user_id hu
    have hhandle : handle_user_message env phone_number message st
        = handle_known_user env user_id phone_number message st := by
      unfold handle_user_message
      rw [hu]
    refine ⟨by rw [hhandle]; rfl, ?_⟩
    refine ⟨_, by
      rw [hhandle]
      exact handle_known_user_store env user_id phone_number message st, ?_⟩
    rw [hhandle]
    have hr : (handle_known_user env user_id phone_number message st).reply
        = (turn_outcome env user_id phone_number message st).reply := rfl
    rw [hr, SupabaseMessageHistory.add_ai_message, add_message_session_messages,
      SupabaseMessageHistory.add_user_message, add_message_session_messages,
      List.append_assoc]
    rfl

/-- Environment of a turn whose contact has no user record. -/
def envNoUser : Env := { envW false with userLookup := .ok none }

theorem C10_transcript_growth_witness :
    handle_user_message envNoUser "p" "hi" stW
        = ⟨userNotFoundText, stW, none⟩
      ∧ (handle_user_message (envW false) "p" "hi" stW).session_id
        = some (turn_session_id (envW false) "u1" stW) :=
  ⟨(C10_transcript_growth envNoUser "p" "hi" stW).1 rfl,
   ((C10_transcript_growth (envW false) "p" "hi" stW).2 "u1" rfl).1⟩
